import Mathlib

/-!
Verification of the resource-access layer of `mllaunchpad`
(`src/mllaunchpad/datasources.py`), shallowly embedded in Lean 4.

Python exceptions are modelled by the `Err` type and fallible operations
return `Except Err α`.  Python `dict`s (configuration blocks, `options`
maps, keyword-argument maps) are modelled as association lists; dict
subscription (`d[k]`) is `getItem`, which raises `KeyError` on a missing
key, mirroring Python.  The in-place mutation of `self.options` performed
by `put_dataframe` (`kw_options` aliases `self.options`) is modelled by
returning the updated instance state alongside the write effect.
-/

set_option linter.unusedVariables false

namespace MLLaunchpad

/-- Python exception classes raised by the code under verification. -/
inductive Err where
  | typeError (msg : String)
  | notImplementedError (msg : String)
  | keyError (key : String)
  | missingCredentialError (msg : String)
  | fileNotFoundError (path : String)
  deriving DecidableEq, Repr

/-- Values that may appear in an `options` map (we only need booleans,
strings and integers for the forwarded keyword arguments). -/
inductive OptVal where
  | b (v : Bool)
  | s (v : String)
  | n (v : Int)
  deriving DecidableEq, Repr

/-- A Python `dict` of keyword options, as an association list (insertion
order preserved, first binding of a key is the authoritative one). -/
abbrev Options := List (String × OptVal)

/-- `k in d` for an options dict. -/
def hasKey (o : Options) (k : String) : Bool :=
  o.any (fun kv => kv.1 == k)

/-- `d.get(k)` for an options dict. -/
def lookupOpt (o : Options) (k : String) : Option OptVal :=
  (o.find? (fun kv => kv.1 == k)).map (fun kv => kv.2)

/-- String-valued option with a default (used for `sep` / `decimal`). -/
def optStr (o : Options) (k : String) (d : String) : String :=
  match lookupOpt o k with
  | some (.s v) => v
  | _ => d

/-- Boolean-valued option with a default (used for `index`). -/
def optBool (o : Options) (k : String) (d : Bool) : Bool :=
  match lookupOpt o k with
  | some (.b v) => v
  | _ => d

/-- First character of a string, with a default; pandas separators are
single characters passed as one-character strings. -/
def strHeadChar (s : String) (d : Char) : Char :=
  match s.toList with
  | c :: _ => c
  | [] => d

/-- Python string `dict` (configuration blocks whose values are strings). -/
abbrev StrDict := List (String × String)

/-- `d[k]` on a string dict: raises `KeyError` when the key is absent,
exactly like Python subscription. -/
def getItem (d : StrDict) (k : String) : Except Err String :=
  match (d.find? (fun kv => kv.1 == k)).map (fun kv => kv.2) with
  | some v => .ok v
  | none => .error (.keyError k)

/-- `d.get(k)` on a string dict. -/
def getOpt (d : StrDict) (k : String) : Option String :=
  (d.find? (fun kv => kv.1 == k)).map (fun kv => kv.2)

/-- The apostrophe character, used by Python `repr` of strings. -/
def quoteCh : Char := Char.ofNat 39

/-- Python `repr` of a simple string (no embedded quotes/escapes needed
for the identifiers and type tags at play): wraps in single quotes. -/
def pyRepr (s : String) : String :=
  String.singleton quoteCh ++ s ++ String.singleton quoteCh

/-- Substring test (does `sub` occur contiguously inside `hay`?), used to
state that an error message names a method. -/
def containsSub (hay sub : List Char) : Bool :=
  sub.isPrefixOf hay ||
    match hay with
    | [] => false
    | _ :: t => containsSub t sub

/-- An error message `msg` names the method `m`. -/
def namesMethod (msg m : String) : Prop :=
  containsSub msg.toList m.toList = true

instance (msg m : String) : Decidable (namesMethod msg m) :=
  inferInstanceAs (Decidable (_ = true))

/-!  ## Tabular datasets

A dataframe cell.  Numeric cells are represented by their decimal digit
expansion (sign, integer-part digits, optional fractional digits), which
is exactly the information `pandas.read_csv` extracts from a numeric
field and `DataFrame.to_csv` prints back.  `na` is the canonical
missing-value marker (`numpy.nan`); `pyNone` is a driver-native `None`
null as delivered by a database driver before normalization; `sStr` is a
non-numeric text field. -/
inductive Cell where
  | sNum (neg : Bool) (ip : List Nat) (frac : Option (List Nat))
  | na
  | pyNone
  | sStr (s : List Char)
  deriving DecidableEq, Repr

/-- A rectangular dataset with named columns. -/
structure DataFrame where
  columns : List String
  rows : List (List Cell)
  deriving DecidableEq, Repr

/-- A cell is a missing value (either the canonical marker or a
driver-native null). -/
def Cell.isMissing : Cell → Bool
  | .na => true
  | .pyNone => true
  | _ => false

/-- Well-formed digit expansion: nonempty and each digit below ten. -/
def wfDigits (ds : List Nat) : Bool :=
  !ds.isEmpty && ds.all (fun d => d < 10)

/-- A cell holding a well-formed number or a missing value (the cell
shapes a numeric column can contain). -/
def Cell.wfNumeric : Cell → Bool
  | .sNum _ ip frac =>
      wfDigits ip && (match frac with | some fs => wfDigits fs | none => true)
  | .na => true
  | _ => false

/-- Does some cell of the dataframe hold a decimal (fractional)
value? -/
def hasDecimalCell (df : DataFrame) : Bool :=
  df.rows.any (fun row => row.any (fun c =>
    match c with
    | .sNum _ _ (some _) => true
    | _ => false))

/-! ## CSV parsing and printing (the fragment of `pandas.read_csv` /
`DataFrame.to_csv` the file backends exercise) -/

/-- The character for decimal digit `n` (`n < 10`). -/
def digitChar (n : Nat) : Char := Char.ofNat (48 + n)

def isDigitCh (c : Char) : Bool := 48 ≤ c.toNat && c.toNat ≤ 57

def charDigit (c : Char) : Nat := c.toNat - 48

/-- Split a character list at every occurrence of `c` (like
`str.split(c)` in Python: always returns at least one chunk). -/
def splitCh (c : Char) : List Char → List (List Char)
  | [] => [[]]
  | x :: xs =>
    match splitCh c xs with
    | [] => [[x]]
    | w :: ws => if x = c then [] :: w :: ws else (x :: w) :: ws

/-- Join chunks with the separator `c` between them. -/
def joinCh (c : Char) : List (List Char) → List Char
  | [] => []
  | [l] => l
  | l :: rest => l ++ c :: joinCh c rest

/-- Append a terminating newline to every line (`to_csv` terminates each
record, including the last, with the line terminator). -/
def terminateLines : List (List Char) → List Char
  | [] => []
  | l :: rest => l ++ '\n' :: terminateLines rest

def renderDigits (ds : List Nat) : List Char := ds.map digitChar

/-- Print one cell the way `to_csv` does: numbers with the given decimal
marker, missing values as the empty field. -/
def Cell.render (decimal : Char) : Cell → List Char
  | .sNum neg ip frac =>
      (if neg then ['-'] else []) ++ renderDigits ip ++
      (match frac with
       | some fs => decimal :: renderDigits fs
       | none => [])
  | .na => []
  | .pyNone => []
  | .sStr s => s

def parseDigits (s : List Char) : Option (List Nat) :=
  if s.all isDigitCh && !s.isEmpty then some (s.map charDigit) else none

/-- Parse one field the way `read_csv` infers it: empty field is a
missing value, an optionally-signed digit string is an integer, a signed
digit string with one occurrence of the decimal marker is a decimal
number, everything else stays text. -/
def parseCell (decimal : Char) (s : List Char) : Cell :=
  match s with
  | [] => .na
  | c0 :: rest =>
    let t := if c0 == '-' then rest else c0 :: rest
    match splitCh decimal t with
    | [ds] =>
      match parseDigits ds with
      | some d => .sNum (c0 == '-') d none
      | none => .sStr (c0 :: rest)
    | [ds, fs] =>
      match parseDigits ds, parseDigits fs with
      | some d, some f => .sNum (c0 == '-') d (some f)
      | _, _ => .sStr (c0 :: rest)
    | _ => .sStr (c0 :: rest)

/-- Print a dataframe as CSV text: header line then one line per row,
each line terminated by a newline; with `index` an unnamed index column
holding the row number is prepended. -/
def renderCsv (sep decimal : Char) (index : Bool) (df : DataFrame) : List Char :=
  let headerCells := (if index then [([] : List Char)] else []) ++ df.columns.map String.toList
  let bodyLines := df.rows.enum.map (fun p =>
    joinCh sep ((if index then [Nat.toDigits 10 p.1] else []) ++ p.2.map (Cell.render decimal)))
  terminateLines (joinCh sep headerCells :: bodyLines)

/-- Parse CSV text: split into lines (dropping the chunk after a
trailing newline), the first line being the header. -/
def parseCsv (sep decimal : Char) (content : List Char) : DataFrame :=
  let ls := splitCh '\n' content
  let ls := if ls.getLast? = some [] then ls.dropLast else ls
  match ls with
  | [] => { columns := [], rows := [] }
  | h :: rs =>
    { columns := (splitCh sep h).map String.mk
      rows := rs.map (fun r => (splitCh sep r).map (parseCell decimal)) }

/-! ## Keyword-argument forwarding

`pd.read_csv(self.path, sep=";", decimal=",", **kw_options)` binds the
explicit keyword arguments and the splatted options at call time; a key
present in both raises `TypeError: ... got multiple values for keyword
argument ...` before the callee body runs (in particular before the file
is opened). -/

/-- First splatted key colliding with an explicit keyword argument. -/
def dupKey (fixed opts : Options) : Option String :=
  (opts.find? (fun kv => hasKey fixed kv.1)).map (fun kv => kv.1)

def kwargsMsg (f k : String) : String :=
  f ++ "() got multiple values for keyword argument " ++ pyRepr k

/-! ## Files -/

/-- The file system: a map from paths to file contents; writes go to the
front, reads take the first binding. -/
abbrev FileSystem := List (String × List Char)

def fsRead (fs : FileSystem) (p : String) : Except Err (List Char) :=
  match (List.find? (fun kv => kv.1 == p) fs).map (fun kv => kv.2) with
  | some c => .ok c
  | none => .error (.fileNotFoundError p)

/-- Opening a file for writing truncates: the new content replaces
whatever was there. -/
def fsWrite (fs : FileSystem) (p : String) (c : List Char) : FileSystem :=
  (p, c) :: fs

/-- A raw payload: a text string or a byte sequence. -/
inductive Raw where
  | str (s : List Char)
  | bytes (b : List Char)
  deriving DecidableEq, Repr

def Raw.content : Raw → List Char
  | .str s => s
  | .bytes b => b

/-- `pandas.read_csv` applied to a path: keyword collision is checked at
call time, then the file is opened and parsed with the merged options. -/
def call_read_csv (fs : FileSystem) (path : String) (fixed opts : Options) :
    Except Err DataFrame :=
  match dupKey fixed opts with
  | some k => .error (.typeError (kwargsMsg "read_csv" k))
  | none => do
    let merged := fixed ++ opts
    let content ← fsRead fs path
    .ok (parseCsv (strHeadChar (optStr merged "sep" ",") ',')
                  (strHeadChar (optStr merged "decimal" ".") '.') content)

/-- `DataFrame.to_csv` applied to a path (pandas default `index=True`
unless the forwarded options say otherwise). -/
def call_to_csv (df : DataFrame) (fs : FileSystem) (path : String) (fixed opts : Options) :
    Except Err FileSystem :=
  match dupKey fixed opts with
  | some k => .error (.typeError (kwargsMsg "to_csv" k))
  | none =>
    let merged := fixed ++ opts
    .ok (fsWrite fs path
      (renderCsv (strHeadChar (optStr merged "sep" ",") ',')
                 (strHeadChar (optStr merged "decimal" ".") '.')
                 (optBool merged "index" true) df))

/-! ## Resource configuration and base contract

`DataSource.__init__` / `DataSink.__init__` live in `mllaunchpad.resource`,
which is outside the excerpted sources.  Modelled from the spec: the base
contracts store the resource identifier, the per-resource configuration
block and its `options` sub-map (default empty).  In Python the stored
`options` is the very dict inside the configuration; updates through one
are visible through the other, which the embedding reproduces by updating
both fields together wherever the code mutates the options. -/

structure RawConfig where
  entries : StrDict
  options : Options
  deriving DecidableEq, Repr

/-- Query/`read_sql` parameters (`params` argument of the call surface). -/
abbrev Params := List (String × OptVal)

def SUPPORTED_FILE_TYPES : List String :=
  ["csv", "euro_csv", "text_file", "binary_file"]

/-! ## FileDataSource -/

structure FileDataSource where
  id : String
  config : RawConfig
  options : Options
  type : String
  path : String
  deriving DecidableEq, Repr

def fileSourceTypeMsg (t identifier : String) : String :=
  pyRepr t ++ " is not a datasource file type (in datasource " ++ pyRepr identifier ++ ")."

/-- `FileDataSource.__init__`: store id/config/options, look up the
`type` tag, reject unsupported tags, then store type and path. -/
def FileDataSource.init (identifier : String) (cfg : RawConfig) :
    Except Err FileDataSource := do
  let t ← getItem cfg.entries "type"
  if t ∈ SUPPORTED_FILE_TYPES then do
    let p ← getItem cfg.entries "path"
    pure { id := identifier, config := cfg, options := cfg.options, type := t, path := p }
  else
    .error (.typeError (fileSourceTypeMsg t identifier))

def bufferedReadMsg : String := "Buffered reading not supported yet"

def fileGetDfTypeMsg : String :=
  "Can only read csv files as dataframes. Use method \"get_raw\" for raw data"

def FileDataSource.get_dataframe (s : FileDataSource) (fs : FileSystem)
    (params : Option Params := none) (buffer : Bool := false) :
    Except Err DataFrame :=
  if buffer then .error (.notImplementedError bufferedReadMsg)
  else
    let kw_options := s.options
    if s.type = "csv" then
      call_read_csv fs s.path [] kw_options
    else if s.type = "euro_csv" then
      call_read_csv fs s.path [("sep", .s ";"), ("decimal", .s ",")] kw_options
    else
      .error (.typeError fileGetDfTypeMsg)

def fileGetRawTypeMsg : String :=
  "Can only read binary data or text strings as raw file. Use method \"get_dataframe\" for dataframes"

/-- `FileDataSource.get_raw`.  (The options forwarded to `fh.read` do not
affect what is read in the modelled fragment.) -/
def FileDataSource.get_raw (s : FileDataSource) (fs : FileSystem)
    (params : Option Params := none) (buffer : Bool := false) :
    Except Err Raw :=
  if buffer then .error (.notImplementedError bufferedReadMsg)
  else if s.type = "text_file" then do
    let c ← fsRead fs s.path
    .ok (.str c)
  else if s.type = "binary_file" then do
    let c ← fsRead fs s.path
    .ok (.bytes c)
  else
    .error (.typeError fileGetRawTypeMsg)

/-! ## FileDataSink -/

structure FileDataSink where
  id : String
  config : RawConfig
  options : Options
  type : String
  path : String
  deriving DecidableEq, Repr

def fileSinkTypeMsg (t identifier : String) : String :=
  pyRepr t ++ " is not a datasink file type (in datasink " ++ pyRepr identifier ++ ")."

def FileDataSink.init (identifier : String) (cfg : RawConfig) :
    Except Err FileDataSink := do
  let t ← getItem cfg.entries "type"
  if t ∈ SUPPORTED_FILE_TYPES then do
    let p ← getItem cfg.entries "path"
    pure { id := identifier, config := cfg, options := cfg.options, type := t, path := p }
  else
    .error (.typeError (fileSinkTypeMsg t identifier))

def bufferedWriteMsg : String := "Buffered writing not supported yet"

def filePutDfTypeMsg : String :=
  "Can only write dataframes to csv file. Use method \"put_raw\" for raw data"

/-- `if "index" not in kw_options: kw_options["index"] = False` (dict
insertion adds the new key at the end). -/
def injectIndexDefault (o : Options) : Options :=
  if hasKey o "index" then o else o ++ [("index", .b false)]

/-- `FileDataSink.put_dataframe`.  `kw_options` aliases `self.options`,
so the index default-injection mutates the instance: the updated
instance is returned with the updated file system. -/
def FileDataSink.put_dataframe (s : FileDataSink) (df : DataFrame) (fs : FileSystem)
    (params : Option Params := none) (buffer : Bool := false) :
    Except Err (FileDataSink × FileSystem) :=
  if buffer then .error (.notImplementedError bufferedWriteMsg)
  else
    let kw_options := injectIndexDefault s.options
    let s2 : FileDataSink :=
      { s with options := kw_options, config := { s.config with options := kw_options } }
    if s.type = "csv" then do
      let fs2 ← call_to_csv df fs s.path [] kw_options
      .ok (s2, fs2)
    else if s.type = "euro_csv" then do
      let fs2 ← call_to_csv df fs s.path [("sep", .s ";"), ("decimal", .s ",")] kw_options
      .ok (s2, fs2)
    else
      .error (.typeError filePutDfTypeMsg)

def filePutRawTypeMsg : String :=
  "Can only write binary data or text strings as raw file. Use method \"put_dataframe\" for dataframes"

/-- `FileDataSink.put_raw`: writes the payload to the path in write
(truncate) mode.  (Payload-kind/file-mode mismatches are outside the
verified fragment.) -/
def FileDataSink.put_raw (s : FileDataSink) (raw : Raw) (fs : FileSystem)
    (params : Option Params := none) (buffer : Bool := false) :
    Except Err FileSystem :=
  if buffer then .error (.notImplementedError bufferedWriteMsg)
  else if s.type = "text_file" then
    .ok (fsWrite fs s.path raw.content)
  else if s.type = "binary_file" then
    .ok (fsWrite fs s.path raw.content)
  else
    .error (.typeError filePutRawTypeMsg)

/-! ## Credential resolution and the Oracle connection factory -/

/-- The process environment. -/
abbrev Env := List (String × String)

def envGet (e : Env) (k : String) : Option String :=
  (e.find? (fun kv => kv.1 == k)).map (fun kv => kv.2)

/-- Modelled from the spec: `get_user_pw` lives in `mllaunchpad.resource`,
which is outside the excerpted sources.  Spec 4.1: returns the resolved
(username, password) pair; fails with `MissingCredentialError` if the
username environment variable is unset; the password is optional — if no
password-variable name was supplied or the named variable is unset, the
resolution succeeds with an absent password. -/
def get_user_pw (env : Env) (user_var : String) (password_var : Option String) :
    Except Err (String × Option String) :=
  match envGet env user_var with
  | none =>
    .error (.missingCredentialError
      ("Environment variable " ++ pyRepr user_var ++ " not set"))
  | some u =>
    match password_var with
    | none => .ok (u, none)
    | some pv => .ok (u, envGet env pv)

/-- An open Oracle connection, modelled as the record of what
`cx_Oracle.connect` was called with (the network session itself is
external to the embedding). -/
structure Connection where
  user : String
  password : Option String
  host : String
  port : String
  service_name : String
  options : Options
  deriving DecidableEq, Repr

/-- `_get_oracle_connection`: resolves credentials and the connection
descriptor from the `dbms` configuration block.  Note the unconditional
subscription `dbms_config["password_var"]`, which raises `KeyError` when
the key is absent. -/
def _get_oracle_connection (env : Env) (dbms_config : RawConfig) :
    Except Err Connection := do
  let uv ← getItem dbms_config.entries "user_var"
  let pv ← getItem dbms_config.entries "password_var"
  let creds ← get_user_pw env uv (some pv)
  let host ← getItem dbms_config.entries "host"
  let port ← getItem dbms_config.entries "port"
  let service ← getItem dbms_config.entries "service_name"
  .ok { user := creds.1, password := creds.2, host := host, port := port,
        service_name := service, options := dbms_config.options }

/-- Outcome of running an `__init__` body that may raise: either the
fully-constructed instance, or the partially-constructed instance
together with the propagated exception (Python still finalizes such a
partial object, so teardown must tolerate it). -/
inductive Constructed (α : Type) where
  | ok (inst : α)
  | failed (halfBuilt : α) (e : Err)
  deriving Repr

/-! ## OracleDataSource -/

structure OracleDataSource where
  id : String
  config : RawConfig
  options : Options
  dbms_config : RawConfig
  connection : Option Connection
  deriving DecidableEq, Repr

/-- `OracleDataSource.__init__`: store config, then eagerly open the
connection; a factory failure leaves the instance without a `connection`
attribute (`connection := none`). -/
def OracleDataSource.init (env : Env) (identifier : String)
    (datasource_config dbms_config : RawConfig) :
    Constructed OracleDataSource :=
  let base : OracleDataSource :=
    { id := identifier, config := datasource_config,
      options := datasource_config.options, dbms_config := dbms_config,
      connection := none }
  match _get_oracle_connection env dbms_config with
  | .ok conn => .ok { base with connection := some conn }
  | .error e => .failed base e

/-- Replace every missing cell by the canonical marker:
`df.fillna(np.nan, inplace=True)`. -/
def fillnaNan (df : DataFrame) : DataFrame :=
  { df with
    rows := df.rows.map (List.map (fun c => if c.isMissing then Cell.na else c)) }

/-- `OracleDataSource.get_dataframe`.  `pandas.read_sql` is external: the
database driver is a function from query text, parameters and options to
a raw result dataframe, which may contain driver-native nulls. -/
def OracleDataSource.get_dataframe (s : OracleDataSource)
    (db : String → Params → Options → DataFrame)
    (params : Option Params := none) (buffer : Bool := false) :
    Except Err DataFrame :=
  if buffer then .error (.notImplementedError bufferedReadMsg)
  else do
    let query ← getItem s.config.entries "query"
    .ok (fillnaNan (db query (params.getD []) s.options))

def oracleGetRawMsg : String :=
  "OracleDataSource currently does not not support raw format/blobs. Use method \"get_dataframe\" for dataframes"

def OracleDataSource.get_raw (s : OracleDataSource)
    (params : Option Params := none) (buffer : Bool := false) :
    Except Err Raw :=
  .error (.notImplementedError oracleGetRawMsg)

/-- `OracleDataSource.__del__`: returns the number of
`connection.close()` calls performed; the `hasattr` guard makes teardown
total (it never raises). -/
def OracleDataSource.del (s : OracleDataSource) : Except Err Nat :=
  if s.connection.isSome then .ok 1 else .ok 0

/-! ## OracleDataSink -/

structure OracleDataSink where
  id : String
  config : RawConfig
  options : Options
  dbms_config : RawConfig
  connection : Option Connection
  deriving DecidableEq, Repr

def OracleDataSink.init (env : Env) (identifier : String)
    (datasink_config dbms_config : RawConfig) :
    Constructed OracleDataSink :=
  let base : OracleDataSink :=
    { id := identifier, config := datasink_config,
      options := datasink_config.options, dbms_config := dbms_config,
      connection := none }
  match _get_oracle_connection env dbms_config with
  | .ok conn => .ok { base with connection := some conn }
  | .error e => .failed base e

def bufferedStoreMsg : String := "Buffered storing not supported yet"

/-- The effect of `dataframe.to_sql(table, con=..., **kw_options)`. -/
structure SqlWrite where
  table : String
  data : DataFrame
  options : Options
  deriving DecidableEq, Repr

/-- `OracleDataSink.put_dataframe`.  As in the file sink, `kw_options`
aliases `self.options`, so the index default-injection mutates the
instance. -/
def OracleDataSink.put_dataframe (s : OracleDataSink) (df : DataFrame)
    (params : Option Params := none) (buffer : Bool := false) :
    Except Err (OracleDataSink × SqlWrite) :=
  if buffer then .error (.notImplementedError bufferedStoreMsg)
  else do
    let table ← getItem s.config.entries "table"
    let kw_options := injectIndexDefault s.options
    let s2 : OracleDataSink :=
      { s with options := kw_options, config := { s.config with options := kw_options } }
    .ok (s2, { table := table, data := df, options := kw_options })

def oraclePutRawMsg : String :=
  "OracleDataSink currently does not not support raw format/blobs. Use method \"put_dataframe\" for raw data"

def OracleDataSink.put_raw (s : OracleDataSink) (raw : Raw)
    (params : Option Params := none) (buffer : Bool := false) :
    Except Err Unit :=
  .error (.notImplementedError oraclePutRawMsg)

def OracleDataSink.del (s : OracleDataSink) : Except Err Nat :=
  if s.connection.isSome then .ok 1 else .ok 0

/-! ## Decidable equality of results -/

instance {ε α : Type} [DecidableEq ε] [DecidableEq α] : DecidableEq (Except ε α) :=
  fun a b =>
    match a, b with
    | .ok x, .ok y =>
      if h : x = y then .isTrue (h ▸ rfl) else .isFalse (fun hh => h (Except.ok.inj hh))
    | .error x, .error y =>
      if h : x = y then .isTrue (h ▸ rfl) else .isFalse (fun hh => h (Except.error.inj hh))
    | .ok _, .error _ => .isFalse (fun hh => Except.noConfusion hh)
    | .error _, .ok _ => .isFalse (fun hh => Except.noConfusion hh)

/-! ## Concrete fixtures used by the witnesses -/

def csvCfg : RawConfig := { entries := [("type", "csv"), ("path", "data.csv")], options := [] }

def euroCfg : RawConfig := { entries := [("type", "euro_csv"), ("path", "f.csv")], options := [] }

def txtCfg : RawConfig := { entries := [("type", "text_file"), ("path", "t.txt")], options := [] }

def csvSrc : FileDataSource :=
  { id := "src", config := csvCfg, options := [], type := "csv", path := "data.csv" }

def euroSrc : FileDataSource :=
  { id := "src", config := euroCfg, options := [], type := "euro_csv", path := "f.csv" }

def txtSrc : FileDataSource :=
  { id := "src", config := txtCfg, options := [], type := "text_file", path := "t.txt" }

def csvSink : FileDataSink :=
  { id := "snk", config := csvCfg, options := [], type := "csv", path := "data.csv" }

def euroSink : FileDataSink :=
  { id := "snk", config := euroCfg, options := [], type := "euro_csv", path := "f.csv" }

def txtSink : FileDataSink :=
  { id := "snk", config := txtCfg, options := [], type := "text_file", path := "t.txt" }

/-- The example table of spec section 8: columns `[id, amount]`, one row
`1, 12.5`. -/
def dfExample : DataFrame :=
  { columns := ["id", "amount"],
    rows := [[.sNum false [1] none, .sNum false [1, 2] (some [5])]] }

/-- A `dbms` block that follows the code's own configuration example
(`password_var` present). -/
def dbmsWithPw : RawConfig :=
  { entries := [("host", "db.example.com"), ("port", "1521"),
                ("service_name", "svc"), ("user_var", "ORA_USER"),
                ("password_var", "ORA_PW")],
    options := [] }

/-- The same block without the (documented-as-optional) `password_var`. -/
def dbmsNoPw : RawConfig :=
  { entries := [("host", "db.example.com"), ("port", "1521"),
                ("service_name", "svc"), ("user_var", "ORA_USER")],
    options := [] }

/-- Environment holding the username but not the password variable. -/
def envUserOnly : Env := [("ORA_USER", "scott")]

def oraSrcCfg : RawConfig := { entries := [("query", "SELECT 1 FROM DUAL")], options := [] }

def oraSnkCfg : RawConfig := { entries := [("table", "t")], options := [] }

def connScott : Connection :=
  { user := "scott", password := none, host := "db.example.com",
    port := "1521", service_name := "svc", options := [] }

def oraSrc : OracleDataSource :=
  { id := "ora", config := oraSrcCfg, options := [], dbms_config := dbmsWithPw,
    connection := some connScott }

def oraSrcPartial : OracleDataSource :=
  { id := "ora", config := oraSrcCfg, options := [], dbms_config := dbmsWithPw,
    connection := none }

def oraSink : OracleDataSink :=
  { id := "orasnk", config := oraSnkCfg, options := [], dbms_config := dbmsWithPw,
    connection := some connScott }

def oraSinkPartial : OracleDataSink :=
  { id := "orasnk", config := oraSnkCfg, options := [], dbms_config := dbmsWithPw,
    connection := none }

/-! ## Claims -/

/-- C2: for every backend (file source, file sink, database source,
database sink) and every method of its call surface, invoking the method
with `buffer = true` fails with a `NotImplementedError`-class failure,
regardless of the other arguments and of the resource's configured
type. -/
theorem claim_C2 (fs : FileSystem) (df : DataFrame) (raw : Raw)
    (p : Option Params) (db : String → Params → Options → DataFrame)
    (fsrc : FileDataSource) (fsnk : FileDataSink)
    (osrc : OracleDataSource) (osnk : OracleDataSink) :
    (∃ m, FileDataSource.get_dataframe fsrc fs p true = .error (.notImplementedError m)) ∧
    (∃ m, FileDataSource.get_raw fsrc fs p true = .error (.notImplementedError m)) ∧
    (∃ m, FileDataSink.put_dataframe fsnk df fs p true = .error (.notImplementedError m)) ∧
    (∃ m, FileDataSink.put_raw fsnk raw fs p true = .error (.notImplementedError m)) ∧
    (∃ m, OracleDataSource.get_dataframe osrc db p true = .error (.notImplementedError m)) ∧
    (∃ m, OracleDataSource.get_raw osrc p true = .error (.notImplementedError m)) ∧
    (∃ m, OracleDataSink.put_dataframe osnk df p true = .error (.notImplementedError m)) ∧
    (∃ m, OracleDataSink.put_raw osnk raw p true = .error (.notImplementedError m)) :=
  ⟨⟨_, rfl⟩, ⟨_, rfl⟩, ⟨_, rfl⟩, ⟨_, rfl⟩, ⟨_, rfl⟩, ⟨_, rfl⟩, ⟨_, rfl⟩, ⟨_, rfl⟩⟩

/-- C6: credential resolution fails with `MissingCredentialError` when
the username environment variable is unset, and succeeds with an absent
password when the named password variable is unset — but the connection
factory does NOT accept a configuration block with no `password_var`
entry: `_get_oracle_connection` subscripts `dbms_config["password_var"]`
unconditionally and raises `KeyError`, although the code's own
configuration examples mark `password_var` as optional.  This theorem
records all three behaviors at concrete inputs. -/
theorem claim_C6 :
    _get_oracle_connection [] dbmsWithPw =
      .error (.missingCredentialError
        ("Environment variable " ++ pyRepr "ORA_USER" ++ " not set")) ∧
    (_get_oracle_connection envUserOnly dbmsWithPw).toOption.map
        (fun c => (c.user, c.password)) = some ("scott", none) ∧
    _get_oracle_connection envUserOnly dbmsNoPw = .error (.keyError "password_var") :=
  ⟨rfl, rfl, rfl⟩

/-- C7: destroying a database-backed source or sink closes its owned
connection exactly once when construction completed; when the connection
factory failed, the partially-constructed instance has no connection and
teardown performs no close attempt and does not fail. -/
theorem claim_C7 :
    (∀ (env : Env) (i : String) (dc bc : RawConfig) (s : OracleDataSource),
        OracleDataSource.init env i dc bc = .ok s →
        s.connection.isSome = true ∧ OracleDataSource.del s = .ok 1) ∧
    (∀ (env : Env) (i : String) (dc bc : RawConfig) (p : OracleDataSource) (e : Err),
        OracleDataSource.init env i dc bc = .failed p e →
        p.connection = none ∧ OracleDataSource.del p = .ok 0) ∧
    (∀ (env : Env) (i : String) (dc bc : RawConfig) (s : OracleDataSink),
        OracleDataSink.init env i dc bc = .ok s →
        s.connection.isSome = true ∧ OracleDataSink.del s = .ok 1) ∧
    (∀ (env : Env) (i : String) (dc bc : RawConfig) (p : OracleDataSink) (e : Err),
        OracleDataSink.init env i dc bc = .failed p e →
        p.connection = none ∧ OracleDataSink.del p = .ok 0) := by
  refine ⟨?_, ?_, ?_, ?_⟩
  · intro env i dc bc s h
    unfold OracleDataSource.init at h
    cases hc : _get_oracle_connection env bc <;> simp [hc] at h
    subst h
    exact ⟨rfl, rfl⟩
  · intro env i dc bc p e h
    unfold OracleDataSource.init at h
    cases hc : _get_oracle_connection env bc <;> simp [hc] at h
    cases h.1
    exact ⟨rfl, rfl⟩
  · intro env i dc bc s h
    unfold OracleDataSink.init at h
    cases hc : _get_oracle_connection env bc <;> simp [hc] at h
    subst h
    exact ⟨rfl, rfl⟩
  · intro env i dc bc p e h
    unfold OracleDataSink.init at h
    cases hc : _get_oracle_connection env bc <;> simp [hc] at h
    cases h.1
    exact ⟨rfl, rfl⟩

/-- Witness for C7: a construction that succeeds (username present in
the environment) is torn down with exactly one close; a construction
whose factory fails (empty environment) yields a connectionless partial
instance whose teardown closes nothing. -/
theorem claim_C7_witness :
    (oraSrc.connection.isSome = true ∧ OracleDataSource.del oraSrc = .ok 1) ∧
    (oraSrcPartial.connection = none ∧ OracleDataSource.del oraSrcPartial = .ok 0) ∧
    (oraSink.connection.isSome = true ∧ OracleDataSink.del oraSink = .ok 1) ∧
    (oraSinkPartial.connection = none ∧ OracleDataSink.del oraSinkPartial = .ok 0) :=
  ⟨claim_C7.1 envUserOnly "ora" oraSrcCfg dbmsWithPw oraSrc rfl,
   claim_C7.2.1 [] "ora" oraSrcCfg dbmsWithPw oraSrcPartial
     (.missingCredentialError ("Environment variable " ++ pyRepr "ORA_USER" ++ " not set")) rfl,
   claim_C7.2.2.1 envUserOnly "orasnk" oraSnkCfg dbmsWithPw oraSink rfl,
   claim_C7.2.2.2 [] "orasnk" oraSnkCfg dbmsWithPw oraSinkPartial
     (.missingCredentialError ("Environment variable " ++ pyRepr "ORA_USER" ++ " not set")) rfl⟩

def badCfg : RawConfig := { entries := [("type", "xlsx"), ("path", "p")], options := [] }

def indexFalseOpts : Options := [("index", OptVal.b false)]

/-- `csvSink` after the aliasing injection performed by its first
`put_dataframe` call. -/
def csvSinkMut : FileDataSink :=
  { csvSink with options := indexFalseOpts,
                 config := { csvSink.config with options := indexFalseOpts } }

/-- `oraSink` after the aliasing injection performed by its first
`put_dataframe` call. -/
def oraSinkMut : OracleDataSink :=
  { oraSink with options := indexFalseOpts,
                 config := { oraSink.config with options := indexFalseOpts } }

/-- A database driver returning one column with a native `None` null. -/
def dbNull : String → Params → Options → DataFrame :=
  fun _ _ _ => { columns := ["a"], rows := [[Cell.pyNone]] }

/-- The separator `read_csv`/`to_csv` ends up using: the caller's `sep`
option (first character) or the pandas default. -/
def csvForwardSep (o : Options) : Char := strHeadChar (optStr o "sep" ",") ','

/-- The decimal marker `read_csv`/`to_csv` ends up using. -/
def csvForwardDec (o : Options) : Char := strHeadChar (optStr o "decimal" ".") '.'

def euroSepSrc : FileDataSource := { euroSrc with options := [("sep", OptVal.s "|")] }

def csvSepSrc : FileDataSource := { csvSrc with options := [("sep", OptVal.s "|")] }

def euroSepSink : FileDataSink := { euroSink with options := [("decimal", OptVal.s "!")] }

/-- All the character-level facts about a decimal digit the round-trip
argument needs, bundled so they can be established by evaluation. -/
def digitOk (d : Nat) : Bool :=
  isDigitCh (digitChar d) && (charDigit (digitChar d) == d) &&
    !(digitChar d == '-') && !(digitChar d == ',') && !(digitChar d == ';') &&
    !(digitChar d == '\n')

def euroSinkMut : FileDataSink :=
  { euroSink with options := indexFalseOpts,
                  config := { euroSink.config with options := indexFalseOpts } }

/-! ## Substring helper lemmas -/

theorem containsSub_front (a b : List Char) : containsSub (a ++ b) a = true := by
  unfold containsSub
  have h : a.isPrefixOf (a ++ b) = true :=
    List.isPrefixOf_iff_prefix.mpr (List.prefix_append a b)
  simp [h]

theorem containsSub_append_left (x y s : List Char) (h : containsSub y s = true) :
    containsSub (x ++ y) s = true := by
  induction x with
  | nil => simpa using h
  | cons c t ih =>
    unfold containsSub
    simp only [List.cons_append]
    exact Bool.or_eq_true_iff.mpr (Or.inr ih)

/-- A message whose character data decomposes as `a ++ sub ++ c` names
`sub`. -/
theorem namesMethod_of_parts (msg sub : String) (a c : List Char)
    (h : msg.toList = a ++ (sub.toList ++ c)) : namesMethod msg sub := by
  unfold namesMethod
  rw [h]
  exact containsSub_append_left _ _ _ (containsSub_front _ _)

/-- C1: each backend rejects, at call time, the access shape it does not
support: `get_dataframe` on a `text_file`/`binary_file` resource and
`get_raw` on a `csv`/`euro_csv` resource (likewise the sink-side
`put_dataframe`/`put_raw`) raise a `TypeError` naming the other method;
`get_raw` on the database source and `put_raw` on the database sink
always raise a `NotImplementedError` directing to the dataframe
methods. -/
theorem claim_C1 :
    ((∀ (s : FileDataSource) (fs : FileSystem) (p : Option Params),
        s.type = "text_file" ∨ s.type = "binary_file" →
        FileDataSource.get_dataframe s fs p false = .error (.typeError fileGetDfTypeMsg)) ∧
      namesMethod fileGetDfTypeMsg "get_raw") ∧
    ((∀ (s : FileDataSource) (fs : FileSystem) (p : Option Params),
        s.type = "csv" ∨ s.type = "euro_csv" →
        FileDataSource.get_raw s fs p false = .error (.typeError fileGetRawTypeMsg)) ∧
      namesMethod fileGetRawTypeMsg "get_dataframe") ∧
    ((∀ (s : FileDataSink) (df : DataFrame) (fs : FileSystem) (p : Option Params),
        s.type = "text_file" ∨ s.type = "binary_file" →
        FileDataSink.put_dataframe s df fs p false = .error (.typeError filePutDfTypeMsg)) ∧
      namesMethod filePutDfTypeMsg "put_raw") ∧
    ((∀ (s : FileDataSink) (raw : Raw) (fs : FileSystem) (p : Option Params),
        s.type = "csv" ∨ s.type = "euro_csv" →
        FileDataSink.put_raw s raw fs p false = .error (.typeError filePutRawTypeMsg)) ∧
      namesMethod filePutRawTypeMsg "put_dataframe") ∧
    ((∀ (s : OracleDataSource) (p : Option Params) (b : Bool),
        OracleDataSource.get_raw s p b = .error (.notImplementedError oracleGetRawMsg)) ∧
      namesMethod oracleGetRawMsg "get_dataframe") ∧
    ((∀ (s : OracleDataSink) (raw : Raw) (p : Option Params) (b : Bool),
        OracleDataSink.put_raw s raw p b = .error (.notImplementedError oraclePutRawMsg)) ∧
      namesMethod oraclePutRawMsg "put_dataframe") := by
  refine ⟨⟨?_, by decide⟩, ⟨?_, by decide⟩, ⟨?_, by decide⟩, ⟨?_, by decide⟩,
    ⟨?_, by decide⟩, ⟨?_, by decide⟩⟩
  · intro s fs p h
    rcases h with h | h <;> simp [FileDataSource.get_dataframe, h]
  · intro s fs p h
    rcases h with h | h <;> simp [FileDataSource.get_raw, h]
  · intro s df fs p h
    rcases h with h | h <;> simp [FileDataSink.put_dataframe, h]
  · intro s raw fs p h
    rcases h with h | h <;> simp [FileDataSink.put_raw, h]
  · intro s p b
    rfl
  · intro s raw p b
    rfl

/-- Witness for C1: every cross-shape call on a concrete instance fails
with the stated failure. -/
theorem claim_C1_witness :
    FileDataSource.get_dataframe txtSrc [] none false = .error (.typeError fileGetDfTypeMsg) ∧
    FileDataSource.get_raw csvSrc [] none false = .error (.typeError fileGetRawTypeMsg) ∧
    FileDataSink.put_dataframe txtSink dfExample [] none false = .error (.typeError filePutDfTypeMsg) ∧
    FileDataSink.put_raw csvSink (.str []) [] none false = .error (.typeError filePutRawTypeMsg) ∧
    OracleDataSource.get_raw oraSrc none false = .error (.notImplementedError oracleGetRawMsg) ∧
    OracleDataSink.put_raw oraSink (.str []) none false = .error (.notImplementedError oraclePutRawMsg) :=
  ⟨claim_C1.1.1 txtSrc [] none (Or.inl rfl),
   claim_C1.2.1.1 csvSrc [] none (Or.inl rfl),
   claim_C1.2.2.1.1 txtSink dfExample [] none (Or.inl rfl),
   claim_C1.2.2.2.1.1 csvSink (.str []) [] none (Or.inl rfl),
   claim_C1.2.2.2.2.1.1 oraSrc none false,
   claim_C1.2.2.2.2.2.1 oraSink (.str []) none false⟩

/-- C3: constructing a file-backed source or sink whose configured
`type` is not one of the four supported tags fails with a `TypeError`
whose message contains both the offending type tag and the resource
identifier (each rendered by Python `repr`); with a supported tag,
construction succeeds and stores the type and the configured path. -/
theorem claim_C3 :
    (∀ (identifier : String) (cfg : RawConfig) (t : String),
        getOpt cfg.entries "type" = some t → t ∉ SUPPORTED_FILE_TYPES →
        FileDataSource.init identifier cfg = .error (.typeError (fileSourceTypeMsg t identifier))) ∧
    (∀ (identifier : String) (cfg : RawConfig) (t p : String),
        getOpt cfg.entries "type" = some t → t ∈ SUPPORTED_FILE_TYPES →
        getOpt cfg.entries "path" = some p →
        (FileDataSource.init identifier cfg).toOption.map (fun s => (s.type, s.path)) =
          some (t, p)) ∧
    (∀ (t identifier : String),
        namesMethod (fileSourceTypeMsg t identifier) (pyRepr t) ∧
        namesMethod (fileSourceTypeMsg t identifier) (pyRepr identifier)) ∧
    (∀ (identifier : String) (cfg : RawConfig) (t : String),
        getOpt cfg.entries "type" = some t → t ∉ SUPPORTED_FILE_TYPES →
        FileDataSink.init identifier cfg = .error (.typeError (fileSinkTypeMsg t identifier))) ∧
    (∀ (identifier : String) (cfg : RawConfig) (t p : String),
        getOpt cfg.entries "type" = some t → t ∈ SUPPORTED_FILE_TYPES →
        getOpt cfg.entries "path" = some p →
        (FileDataSink.init identifier cfg).toOption.map (fun s => (s.type, s.path)) =
          some (t, p)) ∧
    (∀ (t identifier : String),
        namesMethod (fileSinkTypeMsg t identifier) (pyRepr t) ∧
        namesMethod (fileSinkTypeMsg t identifier) (pyRepr identifier)) := by
  refine ⟨?_, ?_, ?_, ?_, ?_, ?_⟩
  · intro identifier cfg t ht hns
    unfold FileDataSource.init getItem
    unfold getOpt at ht
    rw [ht]
    simp [bind, Except.bind, hns]
  · intro identifier cfg t p ht hs hp
    unfold FileDataSource.init getItem
    unfold getOpt at ht hp
    rw [ht, hp]
    simp [bind, Except.bind, hs, pure, Except.pure, Except.toOption]
  · intro t identifier
    constructor
    · exact namesMethod_of_parts _ _ []
        ((" is not a datasource file type (in datasource " ++ pyRepr identifier ++ ").").toList)
        (by simp [fileSourceTypeMsg, String.toList, String.data_append, List.append_assoc])
    · exact namesMethod_of_parts _ _
        ((pyRepr t ++ " is not a datasource file type (in datasource ").toList)
        (")." : String).toList
        (by simp [fileSourceTypeMsg, String.toList, String.data_append, List.append_assoc])
  · intro identifier cfg t ht hns
    unfold FileDataSink.init getItem
    unfold getOpt at ht
    rw [ht]
    simp [bind, Except.bind, hns]
  · intro identifier cfg t p ht hs hp
    unfold FileDataSink.init getItem
    unfold getOpt at ht hp
    rw [ht, hp]
    simp [bind, Except.bind, hs, pure, Except.pure, Except.toOption]
  · intro t identifier
    constructor
    · exact namesMethod_of_parts _ _ []
        ((" is not a datasink file type (in datasink " ++ pyRepr identifier ++ ").").toList)
        (by simp [fileSinkTypeMsg, String.toList, String.data_append, List.append_assoc])
    · exact namesMethod_of_parts _ _
        ((pyRepr t ++ " is not a datasink file type (in datasink ").toList)
        (")." : String).toList
        (by simp [fileSinkTypeMsg, String.toList, String.data_append, List.append_assoc])

/-- Witness for C3: an `xlsx` tag is rejected with the message naming
tag and identifier; a `csv` tag constructs and stores type and path. -/
theorem claim_C3_witness :
    FileDataSource.init "mysrc" badCfg =
      .error (.typeError (fileSourceTypeMsg "xlsx" "mysrc")) ∧
    (FileDataSource.init "src" csvCfg).toOption.map (fun s => (s.type, s.path)) =
      some ("csv", "data.csv") ∧
    FileDataSink.init "mysnk" badCfg =
      .error (.typeError (fileSinkTypeMsg "xlsx" "mysnk")) ∧
    (FileDataSink.init "snk" csvCfg).toOption.map (fun s => (s.type, s.path)) =
      some ("csv", "data.csv") :=
  ⟨claim_C3.1 "mysrc" badCfg "xlsx" rfl (by decide),
   claim_C3.2.1 "src" csvCfg "csv" "data.csv" rfl (by decide) rfl,
   claim_C3.2.2.2.1 "mysnk" badCfg "xlsx" rfl (by decide),
   claim_C3.2.2.2.2.1 "snk" csvCfg "csv" "data.csv" rfl (by decide) rfl⟩

theorem hasKey_of_lookup (o : Options) (k : String) (v : OptVal)
    (h : lookupOpt o k = some v) : hasKey o k = true := by
  induction o with
  | nil => simp [lookupOpt] at h
  | cons kv t ih =>
    unfold lookupOpt at h
    rw [List.find?_cons] at h
    by_cases hk : (kv.1 == k) = true
    · simp [hasKey, hk]
    · simp only [hk, cond_false] at h
      simp [hasKey, hk]
      have := ih h
      simpa [hasKey] using this

/-- C4: for every tabular sink, `put_dataframe` injects `index=false`
into the options map only when no `index` key is present; a
caller-supplied `index` binding is never overwritten, and the injection
is idempotent. -/
theorem claim_C4 :
    (∀ (o : Options), hasKey o "index" = false →
        injectIndexDefault o = o ++ [("index", OptVal.b false)]) ∧
    (∀ (o : Options) (v : OptVal), lookupOpt o "index" = some v →
        injectIndexDefault o = o) ∧
    (∀ (o : Options), injectIndexDefault (injectIndexDefault o) = injectIndexDefault o) ∧
    (∀ (s : FileDataSink) (df : DataFrame) (fs : FileSystem) (p : Option Params)
        (r : FileDataSink × FileSystem),
        FileDataSink.put_dataframe s df fs p false = .ok r →
        r.1.options = injectIndexDefault s.options) ∧
    (∀ (s : OracleDataSink) (df : DataFrame) (p : Option Params)
        (r : OracleDataSink × SqlWrite),
        OracleDataSink.put_dataframe s df p false = .ok r →
        r.2.options = injectIndexDefault s.options) := by
  refine ⟨?_, ?_, ?_, ?_, ?_⟩
  · intro o h
    simp [injectIndexDefault, h]
  · intro o v h
    simp [injectIndexDefault, hasKey_of_lookup o "index" v h]
  · intro o
    by_cases h : hasKey o "index" = true
    · simp [injectIndexDefault, h]
    · have h2 : hasKey (o ++ [("index", OptVal.b false)]) "index" = true := by
        simp [hasKey, List.any_append]
      simp [injectIndexDefault, h, h2]
  · intro s df fs p r h
    unfold FileDataSink.put_dataframe at h
    simp only [Bool.false_eq_true, if_false] at h
    split at h
    · cases hc : call_to_csv df fs s.path [] (injectIndexDefault s.options) <;>
        simp [hc, bind, Except.bind] at h
      rw [← h]
    · split at h
      · cases hc : call_to_csv df fs s.path
            [("sep", OptVal.s ";"), ("decimal", OptVal.s ",")]
            (injectIndexDefault s.options) <;>
          simp [hc, bind, Except.bind] at h
        rw [← h]
      · simp at h
  · intro s df p r h
    unfold OracleDataSink.put_dataframe at h
    simp only [Bool.false_eq_true, if_false] at h
    cases ht : getItem s.config.entries "table" <;>
      simp [ht, bind, Except.bind] at h
    rw [← h]

/-- Witness for C4: a sink whose options already bind `index` keeps the
caller's binding; a concrete successful file write and table write both
forward the injected options. -/
theorem claim_C4_witness :
    injectIndexDefault [("index", OptVal.b true)] = [("index", OptVal.b true)] ∧
    ((FileDataSink.put_dataframe csvSink dfExample [] none false).toOption.map
        (fun r => r.1.options)).getD [] = injectIndexDefault csvSink.options ∧
    ((OracleDataSink.put_dataframe oraSink dfExample none false).toOption.map
        (fun r => r.2.options)).getD [] = injectIndexDefault oraSink.options := by
  refine ⟨claim_C4.2.1 [("index", OptVal.b true)] (OptVal.b true) rfl, ?_, ?_⟩
  · have h := claim_C4.2.2.2.1 csvSink dfExample [] none
      (csvSinkMut, fsWrite [] "data.csv" "id,amount\n1,12.5\n".toList) rfl
    simpa using h
  · have h := claim_C4.2.2.2.2 oraSink dfExample none
      (oraSinkMut, { table := "t", data := dfExample, options := indexFalseOpts }) rfl
    simpa using h

/-- C5 fails on the code: `put_dataframe` aliases `kw_options` to
`self.options` and injects `index=false` into it, so the first tabular
write on a sink constructed with no `index` option mutates the options
map (and the configuration holding it) visible through the instance —
the mutation does not happen during construction. -/
theorem claim_C5_counterexample :
    (FileDataSink.put_dataframe csvSink dfExample [] none false).toOption.map
        (fun r => r.1.options) = some [("index", OptVal.b false)] ∧
    csvSink.options = [] ∧
    (FileDataSink.put_dataframe csvSink dfExample [] none false).toOption.map
        (fun r => r.1.config.options) = some [("index", OptVal.b false)] ∧
    csvSink.config.options = [] :=
  ⟨rfl, rfl, rfl, rfl⟩

/-- C5 (amended): the configuration is mutated not during construction
but by the tabular `put_dataframe` default-injection: the only
post-construction modification visible through a sink instance is that
`put_dataframe` replaces the options map by `injectIndexDefault` of it
(adding `index=false` only when absent, idempotently); `get_dataframe`,
`get_raw` and `put_raw` take the instance read-only and modify
nothing. -/
theorem claim_C5 :
    (∀ (s : FileDataSink) (df : DataFrame) (fs : FileSystem) (p : Option Params) (b : Bool)
        (r : FileDataSink × FileSystem),
        FileDataSink.put_dataframe s df fs p b = .ok r →
        r.1 = { s with options := injectIndexDefault s.options,
                       config := { s.config with options := injectIndexDefault s.options } }) ∧
    (∀ (s : OracleDataSink) (df : DataFrame) (p : Option Params) (b : Bool)
        (r : OracleDataSink × SqlWrite),
        OracleDataSink.put_dataframe s df p b = .ok r →
        r.1 = { s with options := injectIndexDefault s.options,
                       config := { s.config with options := injectIndexDefault s.options } }) := by
  constructor
  · intro s df fs p b r h
    cases b
    · unfold FileDataSink.put_dataframe at h
      simp only [Bool.false_eq_true, if_false] at h
      split at h
      · cases hc : call_to_csv df fs s.path [] (injectIndexDefault s.options) <;>
          simp [hc, bind, Except.bind] at h
        rw [← h]
      · split at h
        · cases hc : call_to_csv df fs s.path
              [("sep", OptVal.s ";"), ("decimal", OptVal.s ",")]
              (injectIndexDefault s.options) <;>
            simp [hc, bind, Except.bind] at h
          rw [← h]
        · simp at h
    · simp [FileDataSink.put_dataframe] at h
  · intro s df p b r h
    cases b
    · unfold OracleDataSink.put_dataframe at h
      simp only [Bool.false_eq_true, if_false] at h
      cases ht : getItem s.config.entries "table" <;>
        simp [ht, bind, Except.bind] at h
      rw [← h]
    · simp [OracleDataSink.put_dataframe] at h

/-- Witness for C5 (amended): the concrete successful write mutates the
sink exactly by the documented injection. -/
theorem claim_C5_witness :
    csvSinkMut =
      { csvSink with options := injectIndexDefault csvSink.options,
                     config := { csvSink.config with
                                 options := injectIndexDefault csvSink.options } } :=
  claim_C5.1 csvSink dfExample [] none false
    (csvSinkMut, fsWrite [] "data.csv" "id,amount\n1,12.5\n".toList) rfl

/-- C9: after a database source's `get_dataframe` returns, every missing
cell of the result — whatever native null the driver delivered — is the
canonical marker (`fillna(np.nan)`), and that marker is the same one an
empty cell of a file-backed `csv` source parses to. -/
theorem claim_C9 :
    (∀ (s : OracleDataSource) (db : String → Params → Options → DataFrame)
        (p : Option Params) (out : DataFrame),
        OracleDataSource.get_dataframe s db p false = .ok out →
        ∀ row ∈ out.rows, ∀ c ∈ row, c.isMissing = true → c = Cell.na) ∧
    (FileDataSource.get_dataframe csvSrc [("data.csv", "a,b\n1,\n".toList)] none false =
      .ok { columns := ["a", "b"], rows := [[.sNum false [1] none, .na]] }) := by
  constructor
  · intro s db p out h
    unfold OracleDataSource.get_dataframe at h
    simp only [Bool.false_eq_true, if_false] at h
    cases hq : getItem s.config.entries "query" <;>
      simp [hq, bind, Except.bind] at h
    subst h
    intro row hrow c hc hmiss
    simp only [fillnaNan, List.mem_map] at hrow
    obtain ⟨row0, _, hrow0⟩ := hrow
    subst hrow0
    simp only [List.mem_map] at hc
    obtain ⟨c0, _, hc0⟩ := hc
    subst hc0
    by_cases hm : c0.isMissing = true
    · simp [hm]
    · simp only [Bool.not_eq_true] at hm
      simp [hm] at hmiss
  · rfl

/-- Witness for C9: a driver-native `None` null comes back as the
canonical marker from a concrete database source. -/
theorem claim_C9_witness : Cell.na.isMissing = true ∧ Cell.na = Cell.na :=
  ⟨by decide,
   claim_C9.1 oraSrc dbNull none { columns := ["a"], rows := [[Cell.na]] } rfl
     [Cell.na] (by decide) Cell.na (by decide) rfl⟩

/-- C10: a `euro_csv` resource whose options map itself binds `sep` or
`decimal` fails `get_dataframe`/`put_dataframe` with the
duplicate-keyword-argument `TypeError` (the explicit `sep=";"`,
`decimal=","` arguments collide with the splatted options), whereas a
`csv` resource forwards the caller's option keys verbatim to the
parser/writer. -/
theorem claim_C10 :
    (∀ (s : FileDataSource) (fs : FileSystem) (p : Option Params),
        s.type = "euro_csv" →
        (hasKey s.options "sep" = true ∨ hasKey s.options "decimal" = true) →
        ∃ k, FileDataSource.get_dataframe s fs p false =
          .error (.typeError (kwargsMsg "read_csv" k))) ∧
    (∀ (s : FileDataSource) (fs : FileSystem) (content : List Char) (p : Option Params),
        s.type = "csv" → fsRead fs s.path = .ok content →
        FileDataSource.get_dataframe s fs p false =
          .ok (parseCsv (csvForwardSep s.options) (csvForwardDec s.options) content)) ∧
    (∀ (s : FileDataSink) (df : DataFrame) (fs : FileSystem) (p : Option Params),
        s.type = "euro_csv" →
        (hasKey s.options "sep" = true ∨ hasKey s.options "decimal" = true) →
        ∃ k, FileDataSink.put_dataframe s df fs p false =
          .error (.typeError (kwargsMsg "to_csv" k))) ∧
    (∀ (s : FileDataSink) (df : DataFrame) (fs : FileSystem) (p : Option Params),
        s.type = "csv" →
        FileDataSink.put_dataframe s df fs p false =
          .ok ({ s with options := injectIndexDefault s.options,
                        config := { s.config with options := injectIndexDefault s.options } },
               fsWrite fs s.path
                 (renderCsv (csvForwardSep (injectIndexDefault s.options))
                            (csvForwardDec (injectIndexDefault s.options))
                            (optBool (injectIndexDefault s.options) "index" true) df))) := by
  have collide : ∀ (o : Options),
      hasKey o "sep" = true ∨ hasKey o "decimal" = true →
      ∃ kv, List.find? (fun kv =>
        hasKey [("sep", OptVal.s ";"), ("decimal", OptVal.s ",")] kv.1) o = some kv := by
    intro o hk
    have hex : ∃ kv ∈ o, hasKey [("sep", OptVal.s ";"), ("decimal", OptVal.s ",")] kv.1 = true := by
      rcases hk with hk | hk <;>
        · obtain ⟨kv, hmem, hbeq⟩ := List.any_eq_true.mp hk
          refine ⟨kv, hmem, ?_⟩
          rw [eq_of_beq hbeq]
          decide
    obtain ⟨kv, hmem, hkv⟩ := hex
    have hsome : (List.find? (fun kv =>
        hasKey [("sep", OptVal.s ";"), ("decimal", OptVal.s ",")] kv.1) o).isSome = true := by
      rw [List.find?_isSome]
      exact ⟨kv, hmem, hkv⟩
    exact Option.isSome_iff_exists.mp hsome
  have dupNone : ∀ (o : Options), dupKey [] o = none := by
    intro o
    unfold dupKey
    rw [List.find?_eq_none.mpr (fun x _ => by simp [hasKey])]
    rfl
  refine ⟨?_, ?_, ?_, ?_⟩
  · intro s fs p ht hk
    obtain ⟨kv, hfind⟩ := collide s.options hk
    refine ⟨kv.1, ?_⟩
    unfold FileDataSource.get_dataframe call_read_csv dupKey
    simp [ht, hfind]
  · intro s fs content p ht hread
    unfold FileDataSource.get_dataframe call_read_csv
    simp [ht, dupNone, hread, bind, Except.bind, csvForwardSep, csvForwardDec]
  · intro s df fs p ht hk
    have hk2 : hasKey (injectIndexDefault s.options) "sep" = true ∨
        hasKey (injectIndexDefault s.options) "decimal" = true := by
      rcases hk with hk | hk
      · left
        unfold injectIndexDefault
        split
        · exact hk
        · simp [hasKey, List.any_append] at hk ⊢
          exact hk
      · right
        unfold injectIndexDefault
        split
        · exact hk
        · simp [hasKey, List.any_append] at hk ⊢
          exact hk
    obtain ⟨kv, hfind⟩ := collide (injectIndexDefault s.options) hk2
    refine ⟨kv.1, ?_⟩
    unfold FileDataSink.put_dataframe call_to_csv dupKey
    simp [ht, hfind, bind, Except.bind]
  · intro s df fs p ht
    unfold FileDataSink.put_dataframe call_to_csv
    simp [ht, dupNone, bind, Except.bind, csvForwardSep, csvForwardDec]

/-- Witness for C10: a `euro_csv` source with a caller `sep` option
fails with the duplicate-keyword failure, a `csv` source with the same
kind of option parses with the caller's separator, and likewise on the
sink side. -/
theorem claim_C10_witness :
    (∃ k, FileDataSource.get_dataframe euroSepSrc [] none false =
        .error (.typeError (kwargsMsg "read_csv" k))) ∧
    FileDataSource.get_dataframe csvSepSrc [("data.csv", "a|b\n1|2\n".toList)] none false =
      .ok (parseCsv (csvForwardSep csvSepSrc.options) (csvForwardDec csvSepSrc.options)
            "a|b\n1|2\n".toList) ∧
    (∃ k, FileDataSink.put_dataframe euroSepSink dfExample [] none false =
        .error (.typeError (kwargsMsg "to_csv" k))) ∧
    FileDataSink.put_dataframe csvSink dfExample [] none false =
      .ok (csvSinkMut, fsWrite [] "data.csv" (renderCsv ',' '.' false dfExample)) := by
  refine ⟨claim_C10.1 euroSepSrc [] none rfl (Or.inl (by decide)),
    claim_C10.2.1 csvSepSrc _ _ none rfl rfl,
    claim_C10.2.2.1 euroSepSink dfExample [] none rfl (Or.inr (by decide)),
    ?_⟩
  have h := claim_C10.2.2.2 csvSink dfExample [] none rfl
  exact h

/-! ## Round-trip lemmas for the CSV fragment -/

theorem splitCh_cons (c x : Char) (xs : List Char) :
    splitCh c (x :: xs) =
      match splitCh c xs with
      | [] => [[x]]
      | w :: ws => if x = c then [] :: w :: ws else (x :: w) :: ws := rfl

theorem splitCh_ne_nil (c : Char) (l : List Char) : splitCh c l ≠ [] := by
  induction l with
  | nil => simp [splitCh]
  | cons x xs ih =>
    rw [splitCh_cons]
    cases h : splitCh c xs with
    | nil => simp
    | cons w ws => by_cases hx : x = c <;> simp [hx]

theorem splitCh_no_sep (c : Char) (l : List Char) (h : c ∉ l) : splitCh c l = [l] := by
  induction l with
  | nil => rfl
  | cons x xs ih =>
    have hx : ¬ x = c := fun he => h (he ▸ List.mem_cons_self x xs)
    have hxs : c ∉ xs := fun hm => h (List.mem_cons_of_mem _ hm)
    rw [splitCh_cons, ih hxs]
    simp [hx]

theorem splitCh_append_cons (c : Char) (l t : List Char) (h : c ∉ l) :
    splitCh c (l ++ c :: t) = l :: splitCh c t := by
  induction l with
  | nil =>
    simp only [List.nil_append]
    rw [splitCh_cons]
    cases hs : splitCh c t with
    | nil => exact absurd hs (splitCh_ne_nil c t)
    | cons w ws => simp
  | cons x xs ih =>
    have hx : ¬ x = c := fun he => h (he ▸ List.mem_cons_self x xs)
    have hxs : c ∉ xs := fun hm => h (List.mem_cons_of_mem _ hm)
    simp only [List.cons_append]
    rw [splitCh_cons, ih hxs]
    simp [hx]

theorem splitCh_joinCh (c : Char) (ls : List (List Char)) (hne : ls ≠ [])
    (hall : ∀ l ∈ ls, c ∉ l) : splitCh c (joinCh c ls) = ls := by
  induction ls with
  | nil => exact absurd rfl hne
  | cons l rest ih =>
    cases rest with
    | nil =>
      show splitCh c (joinCh c [l]) = [l]
      exact splitCh_no_sep c l (hall l (List.mem_cons_self _ _))
    | cons l2 rest2 =>
      have h1 : c ∉ l := hall l (List.mem_cons_self _ _)
      have h2 : ∀ x ∈ l2 :: rest2, c ∉ x := fun x hx => hall x (List.mem_cons_of_mem _ hx)
      show splitCh c (l ++ c :: joinCh c (l2 :: rest2)) = l :: l2 :: rest2
      rw [splitCh_append_cons c l _ h1, ih (by simp) h2]

theorem splitCh_terminateLines (ls : List (List Char))
    (hall : ∀ l ∈ ls, '\n' ∉ l) :
    splitCh '\n' (terminateLines ls) = ls ++ [[]] := by
  induction ls with
  | nil => rfl
  | cons l rest ih =>
    have h1 := hall l (List.mem_cons_self _ _)
    have h2 : ∀ x ∈ rest, '\n' ∉ x := fun x hx => hall x (List.mem_cons_of_mem _ hx)
    show splitCh '\n' (l ++ '\n' :: terminateLines rest) = (l :: rest) ++ [[]]
    rw [splitCh_append_cons _ _ _ h1, ih h2]
    rfl

theorem digitOk_of_lt (d : Nat) (h : d < 10) : digitOk d = true := by
  have h10 : ∀ x ∈ List.range 10, digitOk x = true := by decide
  exact h10 d (List.mem_range.mpr h)

theorem digitChar_facts (d : Nat) (h : d < 10) :
    isDigitCh (digitChar d) = true ∧ charDigit (digitChar d) = d ∧
    digitChar d ≠ '-' ∧ digitChar d ≠ ',' ∧ digitChar d ≠ ';' ∧
    digitChar d ≠ '\n' := by
  have hx := digitOk_of_lt d h
  unfold digitOk at hx
  simp only [Bool.and_eq_true, Bool.not_eq_true', beq_iff_eq, beq_eq_false_iff_ne,
    ne_eq] at hx
  tauto

theorem renderDigits_isDigit (ds : List Nat) (h : ∀ d ∈ ds, d < 10) :
    ∀ c ∈ renderDigits ds, isDigitCh c = true := by
  intro c hc
  simp only [renderDigits, List.mem_map] at hc
  obtain ⟨d, hd, rfl⟩ := hc
  exact (digitChar_facts d (h d hd)).1

theorem notMem_renderDigits (ds : List Nat) (h : ∀ d ∈ ds, d < 10)
    (c : Char) (hc : isDigitCh c = false) : c ∉ renderDigits ds := by
  intro hm
  rw [renderDigits_isDigit ds h c hm] at hc
  exact Bool.noConfusion hc

theorem map_charDigit_render (ds : List Nat) (h : ∀ d ∈ ds, d < 10) :
    (renderDigits ds).map charDigit = ds := by
  induction ds with
  | nil => rfl
  | cons d t ih =>
    have hd := (digitChar_facts d (h d (List.mem_cons_self _ _))).2.1
    simp only [renderDigits, List.map_cons] at ih ⊢
    rw [hd, ih (fun x hx => h x (List.mem_cons_of_mem _ hx))]

theorem parseDigits_renderDigits (ds : List Nat) (hne : ds ≠ [])
    (h : ∀ d ∈ ds, d < 10) : parseDigits (renderDigits ds) = some ds := by
  unfold parseDigits
  have hall : (renderDigits ds).all isDigitCh = true :=
    List.all_eq_true.mpr (renderDigits_isDigit ds h)
  have hnem : (renderDigits ds).isEmpty = false := by
    cases ds with
    | nil => exact absurd rfl hne
    | cons d t => rfl
  rw [hall, hnem]
  simp [map_charDigit_render ds h]

theorem wfDigits_ne_nil (ds : List Nat) (h : wfDigits ds = true) : ds ≠ [] := by
  intro he
  subst he
  simp [wfDigits] at h

theorem wfDigits_lt (ds : List Nat) (h : wfDigits ds = true) : ∀ d ∈ ds, d < 10 := by
  unfold wfDigits at h
  simp only [Bool.and_eq_true, List.all_eq_true, decide_eq_true_eq] at h
  exact fun d hd => h.2 d hd

/-- Parsing inverts printing on well-formed numeric cells. -/
theorem parseCell_render (cell : Cell) (h : cell.wfNumeric = true) :
    parseCell ',' (Cell.render ',' cell) = cell := by
  cases cell with
  | na => rfl
  | pyNone => simp [Cell.wfNumeric] at h
  | sStr s => simp [Cell.wfNumeric] at h
  | sNum neg ip frac =>
    unfold Cell.wfNumeric at h
    rw [Bool.and_eq_true] at h
    obtain ⟨hip, hfrac⟩ := h
    have hipne : ip ≠ [] := wfDigits_ne_nil ip hip
    have hiplt : ∀ d ∈ ip, d < 10 := wfDigits_lt ip hip
    have hcomma_ip : ',' ∉ renderDigits ip :=
      notMem_renderDigits ip hiplt ',' (by decide)
    obtain ⟨d, ds, rfl⟩ : ∃ d ds, ip = d :: ds := by
      cases ip with
      | nil => exact absurd rfl hipne
      | cons d ds => exact ⟨d, ds, rfl⟩
    have hdlt : d < 10 := hiplt d (List.mem_cons_self _ _)
    have hbeq : (digitChar d == '-') = false :=
      beq_eq_false_iff_ne.mpr (digitChar_facts d hdlt).2.2.1
    cases frac with
    | none =>
      cases neg with
      | false =>
        have hr : Cell.render ',' (.sNum false (d :: ds) none) =
            digitChar d :: renderDigits ds := by
          simp [Cell.render, renderDigits]
        rw [hr]
        show (let t := if digitChar d == '-' then renderDigits ds
                       else digitChar d :: renderDigits ds
              match splitCh ',' t with
              | [ds2] =>
                match parseDigits ds2 with
                | some d2 => Cell.sNum (digitChar d == '-') d2 none
                | none => Cell.sStr (digitChar d :: renderDigits ds)
              | [ds2, fs2] =>
                match parseDigits ds2, parseDigits fs2 with
                | some d2, some f2 => Cell.sNum (digitChar d == '-') d2 (some f2)
                | _, _ => Cell.sStr (digitChar d :: renderDigits ds)
              | _ => Cell.sStr (digitChar d :: renderDigits ds)) =
            Cell.sNum false (d :: ds) none
        rw [hbeq]
        show (match splitCh ',' (renderDigits (d :: ds)) with
              | [ds2] =>
                match parseDigits ds2 with
                | some d2 => Cell.sNum false d2 none
                | none => Cell.sStr (digitChar d :: renderDigits ds)
              | [ds2, fs2] =>
                match parseDigits ds2, parseDigits fs2 with
                | some d2, some f2 => Cell.sNum false d2 (some f2)
                | _, _ => Cell.sStr (digitChar d :: renderDigits ds)
              | _ => Cell.sStr (digitChar d :: renderDigits ds)) =
            Cell.sNum false (d :: ds) none
        rw [splitCh_no_sep ',' _ hcomma_ip]
        simp [parseDigits_renderDigits (d :: ds) hipne hiplt]
      | true =>
        have hr : Cell.render ',' (.sNum true (d :: ds) none) =
            '-' :: renderDigits (d :: ds) := by
          simp [Cell.render, renderDigits]
        rw [hr]
        show (let t := if ('-' : Char) == '-' then renderDigits (d :: ds)
                       else '-' :: renderDigits (d :: ds)
              match splitCh ',' t with
              | [ds2] =>
                match parseDigits ds2 with
                | some d2 => Cell.sNum (('-' : Char) == '-') d2 none
                | none => Cell.sStr ('-' :: renderDigits (d :: ds))
              | [ds2, fs2] =>
                match parseDigits ds2, parseDigits fs2 with
                | some d2, some f2 => Cell.sNum (('-' : Char) == '-') d2 (some f2)
                | _, _ => Cell.sStr ('-' :: renderDigits (d :: ds))
              | _ => Cell.sStr ('-' :: renderDigits (d :: ds))) =
            Cell.sNum true (d :: ds) none
        rw [show (('-' : Char) == '-') = true from rfl]
        show (match splitCh ',' (renderDigits (d :: ds)) with
              | [ds2] =>
                match parseDigits ds2 with
                | some d2 => Cell.sNum true d2 none
                | none => Cell.sStr ('-' :: renderDigits (d :: ds))
              | [ds2, fs2] =>
                match parseDigits ds2, parseDigits fs2 with
                | some d2, some f2 => Cell.sNum true d2 (some f2)
                | _, _ => Cell.sStr ('-' :: renderDigits (d :: ds))
              | _ => Cell.sStr ('-' :: renderDigits (d :: ds))) =
            Cell.sNum true (d :: ds) none
        rw [splitCh_no_sep ',' _ hcomma_ip]
        simp [parseDigits_renderDigits (d :: ds) hipne hiplt]
    | some fs =>
      have hfsw : wfDigits fs = true := by simpa using hfrac
      have hfsne : fs ≠ [] := wfDigits_ne_nil fs hfsw
      have hfslt : ∀ x ∈ fs, x < 10 := wfDigits_lt fs hfsw
      have hcomma_fs : ',' ∉ renderDigits fs :=
        notMem_renderDigits fs hfslt ',' (by decide)
      have hsplit : splitCh ',' (renderDigits (d :: ds) ++ ',' :: renderDigits fs) =
          [renderDigits (d :: ds), renderDigits fs] := by
        rw [splitCh_append_cons ',' _ _ hcomma_ip, splitCh_no_sep ',' _ hcomma_fs]
      cases neg with
      | false =>
        have hr : Cell.render ',' (.sNum false (d :: ds) (some fs)) =
            digitChar d :: (renderDigits ds ++ ',' :: renderDigits fs) := by
          simp [Cell.render, renderDigits]
        rw [hr]
        show (let t := if digitChar d == '-'
                       then renderDigits ds ++ ',' :: renderDigits fs
                       else digitChar d :: (renderDigits ds ++ ',' :: renderDigits fs)
              match splitCh ',' t with
              | [ds2] =>
                match parseDigits ds2 with
                | some d2 => Cell.sNum (digitChar d == '-') d2 none
                | none => Cell.sStr (digitChar d :: (renderDigits ds ++ ',' :: renderDigits fs))
              | [ds2, fs2] =>
                match parseDigits ds2, parseDigits fs2 with
                | some d2, some f2 => Cell.sNum (digitChar d == '-') d2 (some f2)
                | _, _ => Cell.sStr (digitChar d :: (renderDigits ds ++ ',' :: renderDigits fs))
              | _ => Cell.sStr (digitChar d :: (renderDigits ds ++ ',' :: renderDigits fs))) =
            Cell.sNum false (d :: ds) (some fs)
        rw [hbeq]
        show (match splitCh ',' (renderDigits (d :: ds) ++ ',' :: renderDigits fs) with
              | [ds2] =>
                match parseDigits ds2 with
                | some d2 => Cell.sNum false d2 none
                | none => Cell.sStr (digitChar d :: (renderDigits ds ++ ',' :: renderDigits fs))
              | [ds2, fs2] =>
                match parseDigits ds2, parseDigits fs2 with
                | some d2, some f2 => Cell.sNum false d2 (some f2)
                | _, _ => Cell.sStr (digitChar d :: (renderDigits ds ++ ',' :: renderDigits fs))
              | _ => Cell.sStr (digitChar d :: (renderDigits ds ++ ',' :: renderDigits fs))) =
            Cell.sNum false (d :: ds) (some fs)
        rw [hsplit]
        simp [parseDigits_renderDigits (d :: ds) hipne hiplt,
          parseDigits_renderDigits fs hfsne hfslt]
      | true =>
        have hr : Cell.render ',' (.sNum true (d :: ds) (some fs)) =
            '-' :: (renderDigits (d :: ds) ++ ',' :: renderDigits fs) := by
          simp [Cell.render, renderDigits]
        rw [hr]
        show (let t := if ('-' : Char) == '-'
                       then renderDigits (d :: ds) ++ ',' :: renderDigits fs
                       else '-' :: (renderDigits (d :: ds) ++ ',' :: renderDigits fs)
              match splitCh ',' t with
              | [ds2] =>
                match parseDigits ds2 with
                | some d2 => Cell.sNum (('-' : Char) == '-') d2 none
                | none => Cell.sStr ('-' :: (renderDigits (d :: ds) ++ ',' :: renderDigits fs))
              | [ds2, fs2] =>
                match parseDigits ds2, parseDigits fs2 with
                | some d2, some f2 => Cell.sNum (('-' : Char) == '-') d2 (some f2)
                | _, _ => Cell.sStr ('-' :: (renderDigits (d :: ds) ++ ',' :: renderDigits fs))
              | _ => Cell.sStr ('-' :: (renderDigits (d :: ds) ++ ',' :: renderDigits fs))) =
            Cell.sNum true (d :: ds) (some fs)
        rw [show (('-' : Char) == '-') = true from rfl]
        show (match splitCh ',' (renderDigits (d :: ds) ++ ',' :: renderDigits fs) with
              | [ds2] =>
                match parseDigits ds2 with
                | some d2 => Cell.sNum true d2 none
                | none => Cell.sStr ('-' :: (renderDigits (d :: ds) ++ ',' :: renderDigits fs))
              | [ds2, fs2] =>
                match parseDigits ds2, parseDigits fs2 with
                | some d2, some f2 => Cell.sNum true d2 (some f2)
                | _, _ => Cell.sStr ('-' :: (renderDigits (d :: ds) ++ ',' :: renderDigits fs))
              | _ => Cell.sStr ('-' :: (renderDigits (d :: ds) ++ ',' :: renderDigits fs))) =
            Cell.sNum true (d :: ds) (some fs)
        rw [hsplit]
        simp [parseDigits_renderDigits (d :: ds) hipne hiplt,
          parseDigits_renderDigits fs hfsne hfslt]

/-- Every character a well-formed numeric cell prints is a digit, the
minus sign or the decimal comma. -/
theorem render_mem_chars (cell : Cell) (h : cell.wfNumeric = true)
    (c : Char) (hc : c ∈ Cell.render ',' cell) :
    isDigitCh c = true ∨ c = '-' ∨ c = ',' := by
  cases cell with
  | na => simp [Cell.render] at hc
  | pyNone => simp [Cell.render] at hc
  | sStr s => simp [Cell.wfNumeric] at h
  | sNum neg ip frac =>
    unfold Cell.wfNumeric at h
    rw [Bool.and_eq_true] at h
    obtain ⟨hip, hfrac⟩ := h
    have hiplt := wfDigits_lt ip hip
    unfold Cell.render at hc
    rcases List.mem_append.mp hc with h1 | h1
    · rcases List.mem_append.mp h1 with h2 | h2
      · cases neg with
        | false => simp at h2
        | true =>
          simp at h2
          exact Or.inr (Or.inl h2)
      · exact Or.inl (renderDigits_isDigit ip hiplt c h2)
    · cases frac with
      | none => simp at h1
      | some fs =>
        have hfslt := wfDigits_lt fs (by simpa using hfrac)
        rcases List.mem_cons.mp h1 with h3 | h3
        · exact Or.inr (Or.inr h3)
        · exact Or.inl (renderDigits_isDigit fs hfslt c h3)

theorem render_notMem (cell : Cell) (h : cell.wfNumeric = true) (c : Char)
    (hdig : isDigitCh c = false) (hminus : c ≠ '-') (hcomma : c ≠ ',') :
    c ∉ Cell.render ',' cell := by
  intro hc
  rcases render_mem_chars cell h c hc with h1 | h1 | h1
  · rw [h1] at hdig
    exact Bool.noConfusion hdig
  · exact hminus h1
  · exact hcomma h1

theorem mem_joinCh (c : Char) (ls : List (List Char)) (x : Char)
    (hx : x ∈ joinCh c ls) : x = c ∨ ∃ l ∈ ls, x ∈ l := by
  induction ls with
  | nil => simp [joinCh] at hx
  | cons l rest ih =>
    cases rest with
    | nil =>
      exact Or.inr ⟨l, List.mem_cons_self _ _, hx⟩
    | cons l2 r2 =>
      have he : joinCh c (l :: l2 :: r2) = l ++ c :: joinCh c (l2 :: r2) := rfl
      rw [he] at hx
      rcases List.mem_append.mp hx with h1 | h1
      · exact Or.inr ⟨l, List.mem_cons_self _ _, h1⟩
      · rcases List.mem_cons.mp h1 with h2 | h2
        · exact Or.inl h2
        · rcases ih h2 with h3 | ⟨l3, hl3, hx3⟩
          · exact Or.inl h3
          · exact Or.inr ⟨l3, List.mem_cons_of_mem _ hl3, hx3⟩

theorem newline_notMem_line (row : List Cell)
    (hw : ∀ c ∈ row, Cell.wfNumeric c = true) :
    '\n' ∉ joinCh ';' (row.map (Cell.render ',')) := by
  intro hm
  rcases mem_joinCh ';' _ '\n' hm with h | ⟨l, hl, hx⟩
  · exact absurd h (by decide)
  · simp only [List.mem_map] at hl
    obtain ⟨cell, hcell, rfl⟩ := hl
    exact render_notMem cell (hw cell hcell) '\n' (by decide) (by decide) (by decide) hx

theorem splitCh_line (row : List Cell) (hne : row ≠ [])
    (hw : ∀ c ∈ row, Cell.wfNumeric c = true) :
    splitCh ';' (joinCh ';' (row.map (Cell.render ','))) = row.map (Cell.render ',') := by
  apply splitCh_joinCh
  · cases row with
    | nil => exact absurd rfl hne
    | cons a t => simp
  · intro l hl
    simp only [List.mem_map] at hl
    obtain ⟨cell, hcell, rfl⟩ := hl
    exact render_notMem cell (hw cell hcell) ';' (by decide) (by decide) (by decide)

theorem parse_map_render (row : List Cell)
    (hw : ∀ c ∈ row, Cell.wfNumeric c = true) :
    (row.map (Cell.render ',')).map (parseCell ',') = row := by
  induction row with
  | nil => rfl
  | cons c t ih =>
    simp only [List.map_cons, List.cons.injEq]
    exact ⟨parseCell_render c (hw c (List.mem_cons_self _ _)),
           ih (fun x hx => hw x (List.mem_cons_of_mem _ hx))⟩

/-- The euro-CSV round trip at the dataframe level: printing with
semicolon separator, comma decimal marker and no index column, then
parsing with the same settings, recovers the dataframe. -/
theorem parseCsv_renderCsv (df : DataFrame)
    (hc : df.columns = ["id", "amount"])
    (hr : ∀ row ∈ df.rows, row ≠ [] ∧ ∀ c ∈ row, Cell.wfNumeric c = true) :
    parseCsv ';' ',' (renderCsv ';' ',' false df) = df := by
  obtain ⟨columns, rows⟩ := df
  simp only at hc hr
  subst hc
  have hbody : rows.enum.map (fun p => joinCh ';' (p.2.map (Cell.render ','))) =
      rows.map (fun row => joinCh ';' (row.map (Cell.render ','))) := by
    rw [show (fun p : Nat × List Cell => joinCh ';' (p.2.map (Cell.render ','))) =
        (fun row => joinCh ';' (row.map (Cell.render ','))) ∘ Prod.snd from rfl]
    rw [← List.map_map, List.enum_map_snd]
  have hrender : renderCsv ';' ',' false ⟨["id", "amount"], rows⟩ =
      terminateLines (("id;amount".toList) ::
        rows.map (fun row => joinCh ';' (row.map (Cell.render ',')))) := by
    unfold renderCsv
    simp only [Bool.false_eq_true, if_false, List.nil_append]
    rw [hbody]
    rfl
  rw [hrender]
  have hnl : ∀ l ∈ ("id;amount".toList) ::
      rows.map (fun row => joinCh ';' (row.map (Cell.render ','))), '\n' ∉ l := by
    intro l hl
    rcases List.mem_cons.mp hl with h1 | h1
    · subst h1
      decide
    · simp only [List.mem_map] at h1
      obtain ⟨row, hrow, rfl⟩ := h1
      exact newline_notMem_line row (hr row hrow).2
  unfold parseCsv
  dsimp only
  rw [splitCh_terminateLines _ hnl]
  rw [List.getLast?_concat, List.dropLast_concat]
  simp only [reduceIte]
  have hhead : (splitCh ';' ("id;amount".toList)).map String.mk = ["id", "amount"] := by
    decide
  rw [List.map_map]
  have hrows : rows.map ((fun r => (splitCh ';' r).map (parseCell ',')) ∘
      (fun row => joinCh ';' (row.map (Cell.render ',')))) = rows := by
    have sugar : ∀ row ∈ rows,
        ((fun r => (splitCh ';' r).map (parseCell ',')) ∘
          (fun row => joinCh ';' (row.map (Cell.render ',')))) row = id row := by
      intro row hrow
      show (splitCh ';' (joinCh ';' (row.map (Cell.render ',')))).map (parseCell ',') = row
      rw [splitCh_line row (hr row hrow).1 (hr row hrow).2]
      exact parse_map_render row (hr row hrow).2
    rw [List.map_congr_left sugar, List.map_id]
  rw [hrows, hhead]

theorem fsRead_fsWrite (fs : FileSystem) (p : String) (c : List Char) :
    fsRead (fsWrite fs p c) p = .ok c := by
  unfold fsRead fsWrite
  simp

theorem call_to_csv_euro (df : DataFrame) (fs : FileSystem) (path : String) :
    call_to_csv df fs path [("sep", OptVal.s ";"), ("decimal", OptVal.s ",")]
      (injectIndexDefault []) = .ok (fsWrite fs path (renderCsv ';' ',' false df)) := rfl

theorem call_read_csv_euro (fs : FileSystem) (path : String) (content : List Char)
    (h : fsRead fs path = .ok content) :
    call_read_csv fs path [("sep", OptVal.s ";"), ("decimal", OptVal.s ",")] [] =
      .ok (parseCsv ';' ',' content) := by
  have he : call_read_csv fs path [("sep", OptVal.s ";"), ("decimal", OptVal.s ",")] [] =
      Except.bind (fsRead fs path) (fun c => .ok (parseCsv ';' ',' c)) := rfl
  rw [he, h]
  rfl

/-- A `euro_csv` sink with empty options writes exactly the semicolon/
comma rendering of the dataframe (and mutates its options by the index
injection). -/
theorem put_dataframe_euro (s : FileDataSink) (df : DataFrame) (fs : FileSystem)
    (ht : s.type = "euro_csv") (ho : s.options = []) :
    FileDataSink.put_dataframe s df fs none false =
      .ok ({ s with options := indexFalseOpts,
                    config := { s.config with options := indexFalseOpts } },
           fsWrite fs s.path (renderCsv ';' ',' false df)) := by
  unfold FileDataSink.put_dataframe
  rw [ht, ho]
  simp [bind, Except.bind, call_to_csv_euro df fs s.path]
  rfl

/-- A `euro_csv` source with empty options parses the file's content
with semicolon separator and comma decimal marker. -/
theorem get_dataframe_euro (s : FileDataSource) (fs2 : FileSystem) (content : List Char)
    (ht : s.type = "euro_csv") (ho : s.options = []) (h : fsRead fs2 s.path = .ok content) :
    FileDataSource.get_dataframe s fs2 none false = .ok (parseCsv ';' ',' content) := by
  unfold FileDataSource.get_dataframe
  rw [ht, ho]
  simp [call_read_csv_euro fs2 s.path content h]

/-- C8: for every dataframe with columns `[id, amount]` whose cells are
well-formed numbers (at least one of them carrying a fractional part,
such as 12.5), writing through a `euro_csv` sink stores exactly the
semicolon-separated, comma-decimal rendering of the dataframe, and
reading the stored file back through a `euro_csv` source yields a
dataset equal to the original; at the spec's example table the stored
bytes are literally `"id;amount\n1;12,5\n"`. -/
theorem claim_C8 :
    (∀ (df : DataFrame) (fs : FileSystem) (snk : FileDataSink) (src : FileDataSource)
        (r : FileDataSink × FileSystem),
        snk.type = "euro_csv" → src.type = "euro_csv" →
        snk.options = [] → src.options = [] → src.path = snk.path →
        df.columns = ["id", "amount"] →
        (∀ row ∈ df.rows, row.length = 2 ∧ ∀ c ∈ row, Cell.wfNumeric c = true) →
        hasDecimalCell df = true →
        FileDataSink.put_dataframe snk df fs none false = .ok r →
        fsRead r.2 snk.path = .ok (renderCsv ';' ',' false df) ∧
        FileDataSource.get_dataframe src r.2 none false = .ok df) ∧
    (FileDataSink.put_dataframe euroSink dfExample [] none false).toOption.map
        (fun r => fsRead r.2 "f.csv") = some (.ok ("id;amount\n1;12,5\n".toList)) := by
  constructor
  · intro df fs snk src r htsnk htsrc hosnk hosrc hpath hcols hrows hdec hput
    rw [put_dataframe_euro snk df fs htsnk hosnk] at hput
    have hr := Except.ok.inj hput
    subst hr
    have hread : fsRead (fsWrite fs snk.path (renderCsv ';' ',' false df)) snk.path =
        .ok (renderCsv ';' ',' false df) := fsRead_fsWrite fs snk.path _
    refine ⟨hread, ?_⟩
    have hwf : ∀ row ∈ df.rows, row ≠ [] ∧ ∀ c ∈ row, Cell.wfNumeric c = true := by
      intro row hrow
      refine ⟨?_, (hrows row hrow).2⟩
      intro he
      have := (hrows row hrow).1
      rw [he] at this
      simp at this
    rw [get_dataframe_euro src _ (renderCsv ';' ',' false df) htsrc hosrc
      (by rw [hpath]; exact hread)]
    rw [parseCsv_renderCsv df hcols hwf]
  · rfl

/-- Witness for C8: the spec's example table written to `f.csv` through
the `euro_csv` sink is stored as `"id;amount\n1;12,5\n"` and read back
equal to the original. -/
theorem claim_C8_witness :
    fsRead (fsWrite [] "f.csv" ("id;amount\n1;12,5\n".toList)) "f.csv" =
      .ok (renderCsv ';' ',' false dfExample) ∧
    FileDataSource.get_dataframe euroSrc
        (fsWrite [] "f.csv" ("id;amount\n1;12,5\n".toList)) none false =
      .ok dfExample :=
  claim_C8.1 dfExample [] euroSink euroSrc
    (euroSinkMut, fsWrite [] "f.csv" ("id;amount\n1;12,5\n".toList))
    rfl rfl rfl rfl rfl rfl (by decide) (by decide) rfl

end MLLaunchpad
